import Mathlib

/-!
Shallow embedding of the ContainrLab runner supervisor
(`runner/supervisor/server.py`) and proofs about its claims.

Conventions of the embedding:
* Python strings are Lean `String`s; byte strings are `List Nat` with each
  element `< 256`.
* `HTTPException(status_code, detail)` becomes `HTTPError`; fallible handlers
  return `Except HTTPError α`.
* The Docker engine is external state: it is modelled as an explicit record
  (`Engine`, `Sandbox`, `FileStore`) threaded through the handlers, and the
  results of individual `exec_run` calls inside the sandbox are supplied as
  oracle parameters, mirroring each call site of the Python code.
* Wall-clock readings (`time.time()`) appear only as opaque elapsed values
  that the handlers pass through unchanged; the readiness poll loop, which
  sleeps one second between probes, is discretised into one probe per tick
  with fuel equal to the startup timeout in seconds.
-/

set_option maxRecDepth 8192

deriving instance DecidableEq for Except

namespace ContainrLab

/-- Detail payload of an `HTTPException`: either a plain message or the
`{"error": ..., "logs": [...]}` dict used by the build/run failure paths. -/
inductive Detail where
  | text (message : String)
  | errorLogs (error : String) (logs : List String)
deriving DecidableEq, Repr

/-- Embedding of FastAPI `HTTPException(status_code=..., detail=...)`. -/
structure HTTPError where
  status : Nat
  detail : Detail
deriving DecidableEq, Repr

/-! ## Python string primitives

Structural (kernel-reducible) embeddings of the Python string operations the
supervisor uses, over `String.data`. -/

/-- Python `s.startswith(pre)`. -/
def pyStartsWith (s pre : String) : Bool :=
  pre.data.isPrefixOf s.data

/-- Python `s[:n]`. -/
def pyTake (s : String) (n : Nat) : String :=
  String.mk (s.data.take n)

/-- Python `text.replace("\r\n", "\n")`: left-to-right, non-overlapping. -/
def replaceCRLF : List Char → List Char
  | [] => []
  | '\r' :: '\n' :: rest => '\n' :: replaceCRLF rest
  | c :: rest => c :: replaceCRLF rest

/-- Python `s.split(sep)` for a one-character separator. -/
def splitOnChar (sep : Char) : List Char → List (List Char)
  | [] => [[]]
  | c :: rest =>
    match splitOnChar sep rest with
    | [] => [[c]]
    | h :: t => if c = sep then [] :: h :: t else (c :: h) :: t

/-- Python `sep.join(parts)` for a one-character separator. -/
def joinChar (sep : Char) : List (List Char) → List Char
  | [] => []
  | [p] => p
  | p :: rest => p ++ sep :: joinChar sep rest

/-- `WORKSPACE_ROOT = "/workspace"` (server.py:40). -/
def WORKSPACE_ROOT : String := "/workspace"

/-- `MAX_LOG_LINES = 200` (server.py:38). -/
def MAX_LOG_LINES : Nat := 200

/-! ## Deterministic naming (server.py:589-594, 760-765) -/

/-- `_container_name(session_id) = f"rl_sess_{session_id[:32]}"` (server.py:589-590). -/
def container_name (session_id : String) : String :=
  "rl_sess_" ++ pyTake session_id 32

/-- `_volume_name(session_id) = f"rl_ws_{session_id[:32]}"` (server.py:593-594). -/
def volume_name (session_id : String) : String :=
  "rl_ws_" ++ pyTake session_id 32

/-- `_default_image_tag(session_id)` (server.py:760-761). -/
def default_image_tag (session_id : String) : String :=
  "containrlab/session-" ++ pyTake session_id 12 ++ ":latest"

/-- `_default_run_container_name(session_id)` (server.py:764-765). -/
def default_run_container_name (session_id : String) : String :=
  "rl_app_" ++ pyTake session_id 12

/-! ## `os.path.normpath` (CPython `posixpath.normpath`)

The sanitizer calls `os.path.normpath`; we embed CPython's algorithm:
split on `/`, drop empty and `.` components, resolve `..` (keeping leading
`..` only for relative paths), and preserve one or two leading slashes. -/

/-- Number of leading slashes `posixpath.normpath` preserves: 2 when the path
starts with exactly two slashes, otherwise 1 for absolute and 0 for relative. -/
def initialSlashes (path : String) : Nat :=
  if pyStartsWith path "/" then
    if pyStartsWith path "//" ∧ ¬ pyStartsWith path "///" then 2 else 1
  else 0

/-- One step of the `posixpath.normpath` component loop. -/
def normStep (hasSlashes : Bool) (acc : List String) (comp : String) : List String :=
  if comp = "" ∨ comp = "." then acc
  else if comp ≠ ".." ∨ (hasSlashes = false ∧ acc = []) ∨ acc.getLast? = some ".." then
    acc ++ [comp]
  else acc.dropLast

/-- CPython `posixpath.normpath`. -/
def normpath (path : String) : String :=
  if path = "" then "."
  else
    let slashes := initialSlashes path
    let comps := ((splitOnChar '/' path.data).map String.mk).foldl
      (normStep (decide (slashes > 0))) []
    let joined := String.mk (List.replicate slashes '/' ++ joinChar '/' (comps.map String.data))
    if joined = "" then "." else joined

/-! ## Path sanitizer (server.py:783-793) -/

/-- `_sanitize_workspace_path` (server.py:783-793): default empty input to the
workspace root, absolutise relative paths under the root, normalise, reject
results whose *string* does not start with `"/workspace"`, and collapse a
surviving `"/"` to the root. -/
def sanitize_workspace_path (path : String) : Except HTTPError String :=
  let raw := if path = "" then WORKSPACE_ROOT else path
  let normalized :=
    if pyStartsWith raw "/" then normpath raw
    else normpath (WORKSPACE_ROOT ++ "/" ++ raw)
  if ¬ pyStartsWith normalized WORKSPACE_ROOT then
    .error ⟨400, .text "Path escapes workspace root"⟩
  else if normalized = "/" then .ok WORKSPACE_ROOT
  else .ok normalized

/-- Spec-level confinement predicate: `p` is the workspace root itself or a
proper descendant of it (a path-component containment, not a string-prefix
containment). -/
def withinWorkspaceRoot (p : String) : Bool :=
  p = WORKSPACE_ROOT || pyStartsWith p (WORKSPACE_ROOT ++ "/")

/-! ## Log trimming and exec-output shaping (server.py:663-684, 746-749) -/

/-- `_trim_logs` (server.py:746-749): keep logs unchanged up to `limit` lines,
else prepend the truncation marker to the last `limit` lines (`logs[-limit:]`). -/
def trim_logs (logs : List String) (limit : Nat := MAX_LOG_LINES) : List String :=
  if logs.length ≤ limit then logs
  else "... (truncated) ..." :: logs.drop (logs.length - limit)

/-- Output shaping of `_exec_container_command` (server.py:678-680): decode,
normalise `\r\n` to `\n`, split on `\n`, keep non-empty lines. The byte-level
utf-8 decode with replacement is absorbed into modelling the captured output
as a `String`. -/
def splitLogLines (text : String) : List String :=
  (((splitOnChar '\n' (replaceCRLF text.data)).map String.mk).filter (fun line => line ≠ ""))

/-- `exec_result.exit_code or 0` (server.py:682): Python `or` maps a missing
(`None`) exit status — and a zero one — to `0`, and keeps any non-zero code. -/
def pyOrZero (c : Option Int) : Int :=
  match c with
  | none => 0
  | some v => if v = 0 then 0 else v

/-- Result of one engine `exec_run` call, as seen by the supervisor: the
combined captured output and the exit status the engine reported (possibly
absent). -/
structure EngineExecResult where
  output : String
  exit_code : Option Int
deriving DecidableEq, Repr

/-! ## Engine state and session resolution (server.py:614-623) -/

/-- The outer Docker engine namespace shared by all sessions: containers are
`(name, status)` pairs (names unique in a real engine) and volumes are names. -/
structure Engine where
  containers : List (String × String)
  volumes : List String
deriving DecidableEq, Repr

/-- `client.containers.get(name)` restricted to the status we consume. -/
def containers_get (e : Engine) (name : String) : Option String :=
  (e.containers.find? (fun c => c.1 == name)).map (·.2)

/-- `_get_running_container` (server.py:614-623): `NotFound` becomes 404,
a non-`"running"` status becomes 409, otherwise the container (identified by
its derived name) is returned. -/
def get_running_container (e : Engine) (session_id : String) : Except HTTPError String :=
  let cname := container_name session_id
  match containers_get e cname with
  | none => .error ⟨404, .text "Runner session not found"⟩
  | some status =>
    if status ≠ "running" then .error ⟨409, .text "Runner session is not running"⟩
    else .ok cname

/-! ## Command executor (server.py:302-312, 663-684) -/

/-- Response of `POST /exec`. -/
structure ExecResponse where
  exit_code : Int
  logs : List String
  elapsed : Nat
deriving DecidableEq, Repr

/-- `exec_in_runner` (server.py:302-312): resolve the running sandbox, run the
command (its engine-level outcome is the oracle `res`), shape the output via
`_exec_container_command` and `_trim_logs`, and return exit code + logs +
elapsed time as a normal response. The `command`, `workdir` and `environment`
fields only parametrise the engine call and are bundled into `res`. -/
def exec_in_runner (e : Engine) (session_id : String) (_command : List String)
    (res : EngineExecResult) (elapsed : Nat) : Except HTTPError ExecResponse :=
  match get_running_container e session_id with
  | .error err => .error err
  | .ok _ =>
    let logs := splitLogLines res.output
    let code := pyOrZero res.exit_code
    .ok ⟨code, trim_logs logs, elapsed⟩

/-! ## Startup readiness and seeding (server.py:626-661) -/

/-- `_wait_for_dockerd` (server.py:626-642), discretised to one probe per tick
with fuel = the startup timeout in seconds.  It is generic in the state `σ`
carrying the created container, with `remove` embedding
`container.remove(force=True)`: at each tick, a non-`"running"` status removes
the container and fails 502; a socket probe exiting 0 succeeds; fuel running
out removes the container and fails 504. -/
def wait_for_dockerd_loop (statusAt : Nat → String) (probeAt : Nat → Int)
    (remove : σ → σ) : Nat → Nat → σ → σ × Except HTTPError Unit
  | _, 0, s => (remove s, .error ⟨504, .text "Runner daemon failed to become ready in time"⟩)
  | t, fuel + 1, s =>
    if statusAt t ≠ "running" then
      (remove s, .error ⟨502, .text "Runner container exited during startup"⟩)
    else if probeAt t = 0 then (s, .ok ())
    else wait_for_dockerd_loop statusAt probeAt remove (t + 1) fuel s

/-- `_wait_for_dockerd` starting at tick 0. -/
def wait_for_dockerd (statusAt : Nat → String) (probeAt : Nat → Int)
    (remove : σ → σ) (timeout : Nat) (s : σ) : σ × Except HTTPError Unit :=
  wait_for_dockerd_loop statusAt probeAt remove 0 timeout s

/-- `_seed_workspace` (server.py:645-653): `rm -rf /workspace/*` exiting
non-zero fails 500; a falsy `put_archive` result fails 500; otherwise ok.
Neither failure path removes the container. -/
def seed_workspace (rmExit : Int) (putOk : Bool) : Except HTTPError Unit :=
  if rmExit ≠ 0 then .error ⟨500, .text "Unable to clean workspace before seeding"⟩
  else if ¬ putOk then .error ⟨500, .text "Failed to seed workspace"⟩
  else .ok ()

/-! ## Session manager: `start` (server.py:147-178, 597-611) -/

/-- `_ensure_volume` (server.py:597-601): reuse the volume if present, else
create it. -/
def ensure_volume (e : Engine) (name : String) : Engine :=
  if e.volumes.contains name then e else { e with volumes := e.volumes ++ [name] }

/-- `_remove_container_if_exists` (server.py:604-611): force-remove the named
container; absence is a no-op. -/
def remove_container_if_exists (e : Engine) (name : String) : Engine :=
  { e with containers := e.containers.filter (fun c => c.1 ≠ name) }

/-- `client.containers.run(RUNNER_IMAGE, name=..., detach=True, ...)`
(server.py:160-171): a successful detached create adds a running container of
the given name. -/
def containers_run (e : Engine) (name : String) : Engine :=
  { e with containers := e.containers ++ [(name, "running")] }

/-- Remove the sandbox container of the session from the engine, as
`container.remove(force=True)` does inside `_wait_for_dockerd`. -/
def remove_sandbox (cname : String) (e : Engine) : Engine :=
  remove_container_if_exists e cname

/-- Environment of one `start` call: everything the handler observes from
outside the engine-namespace state — whether the starter directory exists,
the sandbox status and socket-probe outcome at each readiness tick, and the
outcomes of the two seeding steps. -/
structure StartEnv where
  starterExists : Bool
  statusAt : Nat → String
  probeAt : Nat → Int
  rmExit : Int
  putOk : Bool

/-- `start_runner` (server.py:147-178): resolve starter assets (404 if
absent) → ensure volume → force-remove any pre-existing container of the
derived name → create the sandbox → `_wait_for_dockerd` → `_seed_workspace` →
return session id + container name. A creation `APIError` (502) is outside
this healthy-engine model. -/
def start_runner (env : StartEnv) (timeout : Nat) (e : Engine)
    (session_id lab_slug : String) : Engine × Except HTTPError (String × String) :=
  let cname := container_name session_id
  let vname := volume_name session_id
  if ¬ env.starterExists then
    (e, .error ⟨404, .text ("Starter assets not found for lab " ++ lab_slug)⟩)
  else
    let e1 := ensure_volume e vname
    let e2 := remove_container_if_exists e1 cname
    let e3 := containers_run e2 cname
    match wait_for_dockerd env.statusAt env.probeAt (remove_sandbox cname) timeout e3 with
    | (e4, .error err) => (e4, .error err)
    | (e4, .ok _) =>
      match seed_workspace env.rmExit env.putOk with
      | .error err => (e4, .error err)
      | .ok _ => (e4, .ok (session_id, cname))

/-! ## Build pipeline (server.py:200-231, 697-698) -/

/-- Request body of `POST /build` (server.py:70-75). -/
structure BuildPayload where
  session_id : String
  context_path : String
  dockerfile_path : String
  image_tag : Option String
  build_args : List (String × String)

/-- The synthesized `docker build` command (server.py:209-221). -/
def build_command (payload : BuildPayload) (tag : String) : List String :=
  ["docker", "build", "-f", payload.dockerfile_path, "-t", tag]
    ++ payload.build_args.flatMap (fun kv => ["--build-arg", kv.1 ++ "=" ++ kv.2])
    ++ ["."]

/-- `build_image` (server.py:200-231): resolve the running sandbox; require an
absolute context path (400); assert via exec probes that the context is a
directory and the Dockerfile a file (404 otherwise — `ctxIsDir`/`dfIsFile`
are those probe outcomes); synthesize and run the build command (`exec` is
the engine-exec oracle applied to it); trim the logs; a non-zero exit raises
500 with `{"error": "docker build failed", "logs": trimmed}`; on success
collect metrics (`collect`, applied to the untrimmed logs) and return
tag + trimmed logs + metrics. -/
def build_image {μ : Type} (e : Engine) (payload : BuildPayload)
    (ctxIsDir dfIsFile : Bool) (exec : List String → EngineExecResult)
    (collect : List String → μ) : Except HTTPError (String × List String × μ) :=
  match get_running_container e payload.session_id with
  | .error err => .error err
  | .ok _ =>
    if ¬ pyStartsWith payload.context_path "/" then
      .error ⟨400, .text "context_path must be absolute inside the runner"⟩
    else if ¬ ctxIsDir then
      .error ⟨404, .text ("Expected directory " ++ payload.context_path ++ " not found in runner")⟩
    else if ¬ dfIsFile then
      .error ⟨404, .text ("Expected file " ++ payload.dockerfile_path ++ " not found in runner")⟩
    else
      let tag := payload.image_tag.getD (default_image_tag payload.session_id)
      let res := exec (build_command payload tag)
      let logs := splitLogLines res.output
      let code := pyOrZero res.exit_code
      let trimmed := trim_logs logs
      if code ≠ 0 then .error ⟨500, .errorLogs "docker build failed" trimmed⟩
      else .ok (tag, trimmed, collect logs)

/-! ## Run pipeline (server.py:234-272, 768-780) -/

/-- Request body of `POST /run` (server.py:78-87). -/
structure RunPayload where
  session_id : String
  image : String
  command : List String
  env : List (String × String)
  ports : List String
  name : Option String
  detach : Bool
  auto_remove : Bool
  remove_existing : Bool

/-- The nested engine namespace inside one sandbox: names of the application
containers that exist there. -/
structure Sandbox where
  inner : List String
deriving DecidableEq, Repr

/-- `_inner_container_exists` (server.py:774-780) over the sandbox model. -/
def inner_container_exists (s : Sandbox) (name : String) : Bool :=
  s.inner.contains name

/-- `_remove_inner_container` (server.py:768-771): no-op when the inner
container does not exist, else `docker rm -f` removes it. -/
def remove_inner_container (s : Sandbox) (name : String) : Sandbox :=
  if inner_container_exists s name then ⟨s.inner.filter (fun n => n ≠ name)⟩ else s

/-- The port-mapping loop of `run_image` (server.py:251-254): each mapping
must contain a colon (400 otherwise, raised at the first offender); valid
mappings contribute `["-p", mapping]`. -/
def port_args : List String → Except HTTPError (List String)
  | [] => .ok []
  | m :: rest =>
    if ¬ m.data.contains ':' then
      .error ⟨400, .text ("Port mapping " ++ m ++ " must be in HOST:CONTAINER form")⟩
    else
      match port_args rest with
      | .error err => .error err
      | .ok args => .ok ("-p" :: m :: args)

/-- The synthesized `docker run` command (server.py:242-260). -/
def run_command (p : RunPayload) (inner_name : String) (pargs : List String) : List String :=
  ["docker", "run"]
    ++ (if p.detach then ["-d"] else [])
    ++ (if p.auto_remove then ["--rm"] else [])
    ++ ["--name", inner_name]
    ++ pargs
    ++ p.env.flatMap (fun kv => ["-e", kv.1 ++ "=" ++ kv.2])
    ++ [p.image] ++ p.command

/-- `run_image` (server.py:234-272): resolve the running sandbox; derive the
inner name; when `remove_existing`, force-remove any same-named inner
container — this happens *before* the port mappings are validated; then
validate ports (400), synthesize and run the command, and either fail 500
with logs (non-zero exit) or return name + trimmed logs + elapsed. A
successful detached run leaves the inner container in the sandbox. -/
def run_image (e : Engine) (s : Sandbox) (p : RunPayload)
    (exec : List String → EngineExecResult) (elapsed : Nat) :
    Sandbox × Except HTTPError (String × List String × Nat) :=
  match get_running_container e p.session_id with
  | .error err => (s, .error err)
  | .ok _ =>
    let inner_name := p.name.getD (default_run_container_name p.session_id)
    let s1 := if p.remove_existing then remove_inner_container s inner_name else s
    match port_args p.ports with
    | .error err => (s1, .error err)
    | .ok pargs =>
      let res := exec (run_command p inner_name pargs)
      let logs := splitLogLines res.output
      let code := pyOrZero res.exit_code
      if code ≠ 0 then (s1, .error ⟨500, .errorLogs "docker run failed" (trim_logs logs)⟩)
      else (⟨s1.inner ++ [inner_name]⟩, .ok (inner_name, trim_logs logs, elapsed))

/-! ## Base64 (Python `base64.b64encode` / `b64decode`)

Bytes are `Nat`s below 256.  The encoder is standard base64 with `=`
padding, exactly the alphabet and chunking of RFC 4648 as produced by
`base64.b64encode`; the decoder embeds `base64.b64decode` on inputs drawn
from the standard alphabet (the only inputs the supervisor ever feeds it in
the round-trip claim — Python additionally discards foreign characters
before decoding, a case that never arises here). -/

/-- The standard base64 alphabet. -/
def b64alphabet : List Char :=
  "ABCDEFGHIJKLMNOPQRSTUVWXYZabcdefghijklmnopqrstuvwxyz0123456789+/".data

/-- Sextet to character. -/
def encChar (s : Nat) : Char :=
  b64alphabet.getD s 'A'

/-- Character to sextet, `none` for characters outside the alphabet. -/
def decChar (c : Char) : Option Nat :=
  let i := b64alphabet.indexOf c
  if i < 64 then some i else none

/-- `base64.b64encode` over byte lists. -/
def b64encode : List Nat → List Char
  | [] => []
  | [a] => [encChar (a / 4), encChar (a % 4 * 16), '=', '=']
  | [a, b] => [encChar (a / 4), encChar (a % 4 * 16 + b / 16), encChar (b % 16 * 4), '=']
  | a :: b :: c :: rest =>
    encChar (a / 4) :: encChar (a % 4 * 16 + b / 16)
      :: encChar (b % 16 * 4 + c / 64) :: encChar (c % 64) :: b64encode rest

/-- `base64.b64decode` over alphabet-and-padding character lists. -/
def b64decode : List Char → Option (List Nat)
  | [] => some []
  | c0 :: c1 :: c2 :: c3 :: rest => do
    let s0 ← decChar c0
    let s1 ← decChar c1
    if c2 = '=' then
      if c3 = '=' ∧ rest = [] then some [s0 * 4 + s1 / 16] else none
    else do
      let s2 ← decChar c2
      if c3 = '=' then
        if rest = [] then some [s0 * 4 + s1 / 16, s1 % 16 * 16 + s2 / 4] else none
      else do
        let s3 ← decChar c3
        let tail ← b64decode rest
        some ((s0 * 4 + s1 / 16) :: (s1 % 16 * 16 + s2 / 4) :: (s2 % 4 * 64 + s3) :: tail)
  | _ => none

/-! ## Filesystem gateway: write and read (server.py:456-498, 569-586)

The sandbox filesystem reachable through `put_archive`/`get_archive` is
modelled as a finite map from absolute paths to byte contents.  `_write_bytes`
(mkdir parent + stream a single-member tar at the parent directory) is the
store update at the sanitized target; `get_archive` + single-member tar
extraction is the store lookup. -/

/-- Sandbox file store: path to byte content. -/
abbrev FileStore := List (String × List Nat)

/-- Overwrite-or-create at `path`. -/
def store_write (fs : FileStore) (path : String) (content : List Nat) : FileStore :=
  (path, content) :: fs.filter (fun kv => kv.1 ≠ path)

/-- Lookup at `path`. -/
def store_read (fs : FileStore) (path : String) : Option (List Nat) :=
  (fs.find? (fun kv => kv.1 == path)).map (·.2)

/-- `write_file` (server.py:486-498): reject a non-base64 encoding tag (400);
decode the payload (400 on bad base64); resolve the running sandbox; sanitize
the path; `_write_bytes` the decoded bytes at the target. -/
def write_file (e : Engine) (fs : FileStore) (session_id path encoding content : String) :
    FileStore × Except HTTPError String :=
  if encoding ≠ "base64" then
    (fs, .error ⟨400, .text "Only base64 encoding is supported"⟩)
  else
    match b64decode content.data with
    | none => (fs, .error ⟨400, .text "Invalid base64 payload"⟩)
    | some raw =>
      match get_running_container e session_id with
      | .error err => (fs, .error err)
      | .ok _ =>
        match sanitize_workspace_path path with
        | .error err => (fs, .error err)
        | .ok target => (store_write fs target raw, .ok target)

/-- `read_file` (server.py:456-483): resolve the running sandbox; sanitize the
path; `get_archive` the target (404 when absent); extract the single regular
file member; return path, the fixed `"base64"` encoding tag, and the base64
content. -/
def read_file (e : Engine) (fs : FileStore) (session_id path : String) :
    Except HTTPError (String × String × String) :=
  match get_running_container e session_id with
  | .error err => .error err
  | .ok _ =>
    match sanitize_workspace_path path with
    | .error err => .error err
    | .ok target =>
      match store_read fs target with
      | none => .error ⟨404, .text "File not found"⟩
      | some bytes => .ok (target, "base64", String.mk (b64encode bytes))

/-! ## Terminal bridge: inbound frame dispatch (server.py:367-409) -/

/-- JSON values as produced by `json.loads` (numbers restricted to the
integers `isinstance(-, int)` accepts in the resize path). -/
inductive JValue where
  | null
  | bool (b : Bool)
  | num (n : Int)
  | str (s : String)
  | arr (xs : List JValue)
  | obj (fields : List (String × JValue))

/-- `payload.get(key)` over a parsed JSON object. -/
def jlookup (fields : List (String × JValue)) (key : String) : Option JValue :=
  (fields.find? (fun kv => kv.1 == key)).map (·.2)

/-- Python `value == "somestring"` on a JSON value (true exactly when the
value is that string). -/
def isStr (v : Option JValue) (s : String) : Bool :=
  match v with
  | some (JValue.str t) => t == s
  | _ => false

/-- Effect of dispatching one inbound frame. -/
inductive TermAction where
  | writePty (data : String)
  | resizeTty (cols rows : Int)
  | ignore
deriving DecidableEq, Repr

/-- The payload dict of `pump_client_to_container` (server.py:378-384):
`json.loads` failing, or succeeding with anything but an object, falls back to
`{"type": "input", "data": <raw frame text>}`.  `parsed` is the outcome of
`json.loads message` (`none` = `JSONDecodeError`). -/
def frame_payload (parsed : Option JValue) (message : String) : List (String × JValue) :=
  match parsed with
  | some (JValue.obj fields) => fields
  | _ => [("type", JValue.str "input"), ("data", JValue.str message)]

/-- The dispatch of `pump_client_to_container` (server.py:386-407): `input`
writes non-empty string data to the PTY; `pong` is ignored; `resize` with
integer cols/rows resizes; everything else is ignored. -/
def dispatch_frame (parsed : Option JValue) (message : String) : TermAction :=
  let payload := frame_payload parsed message
  let msgType := jlookup payload "type"
  if isStr msgType "input" then
    match jlookup payload "data" with
    | some (JValue.str d) => if d ≠ "" then .writePty d else .ignore
    | _ => .ignore
  else if isStr msgType "pong" then .ignore
  else if isStr msgType "resize" then
    match jlookup payload "cols", jlookup payload "rows" with
    | some (JValue.num cols), some (JValue.num rows) => .resizeTty cols rows
    | _, _ => .ignore
  else .ignore

/-! # Theorems -/

/-- Claim C1: the sanitizer's confinement is a string-prefix test, not a path
test.  `"/workspace-evil"` normalizes outside the workspace root yet is
accepted unchanged, and the root input `"/"` is rejected (its collapse branch
is unreachable) instead of collapsing to the workspace root — while the
spec's other examples behave as stated. -/
theorem C1_sanitizer_failing_inputs :
    sanitize_workspace_path "/workspace-evil" = .ok "/workspace-evil"
    ∧ withinWorkspaceRoot "/workspace-evil" = false
    ∧ sanitize_workspace_path "/" = .error ⟨400, .text "Path escapes workspace root"⟩
    ∧ sanitize_workspace_path "" = .ok "/workspace"
    ∧ sanitize_workspace_path "../etc/passwd"
        = .error ⟨400, .text "Path escapes workspace root"⟩
    ∧ sanitize_workspace_path "/etc/passwd"
        = .error ⟨400, .text "Path escapes workspace root"⟩
    ∧ sanitize_workspace_path "sub/../sub/file.txt" = .ok "/workspace/sub/file.txt" := by
  decide

/-- Claim C5: against a running sandbox, `exec` returns a normal result for
every engine outcome — in particular a non-zero exit code is carried in the
response, with the trimmed captured logs and the elapsed time, and is never
an error. -/
theorem C5_exec_nonzero_is_returned (e : Engine) (sid : String) (cmd : List String)
    (res : EngineExecResult) (elapsed : Nat) (c : String)
    (hrun : get_running_container e sid = .ok c) :
    exec_in_runner e sid cmd res elapsed
      = .ok ⟨pyOrZero res.exit_code, trim_logs (splitLogLines res.output), elapsed⟩
    ∧ (∀ v : Int, v ≠ 0 → res.exit_code = some v →
        exec_in_runner e sid cmd res elapsed
          = .ok ⟨v, trim_logs (splitLogLines res.output), elapsed⟩) := by
  constructor
  · simp [exec_in_runner, hrun]
  · intro v hv hsome
    simp [exec_in_runner, hrun, hsome, pyOrZero, hv]

/-- Witness for C5 at a concrete running session and a command exiting 1. -/
theorem C5_exec_witness :
    exec_in_runner ⟨[("rl_sess_s1", "running")], []⟩ "s1" ["false"] ⟨"boom", some 1⟩ 7
      = .ok ⟨1, trim_logs (splitLogLines "boom"), 7⟩ :=
  (C5_exec_nonzero_is_returned ⟨[("rl_sess_s1", "running")], []⟩ "s1" ["false"]
    ⟨"boom", some 1⟩ 7 "rl_sess_s1" rfl).2 1 (by decide) rfl

/-- Claim C10: when the engine reports no exit status for an exec, the
response surfaces exit code 0, i.e. success. -/
theorem C10_missing_exit_code_is_success (e : Engine) (sid : String) (cmd : List String)
    (res : EngineExecResult) (elapsed : Nat) (c : String)
    (hrun : get_running_container e sid = .ok c) (hnone : res.exit_code = none) :
    ∃ r, exec_in_runner e sid cmd res elapsed = .ok r ∧ r.exit_code = 0 := by
  refine ⟨⟨0, trim_logs (splitLogLines res.output), elapsed⟩, ?_, rfl⟩
  simp [exec_in_runner, hrun, pyOrZero, hnone]

/-- Witness for C10 at a concrete running session and a `None` exit status. -/
theorem C10_witness :
    ∃ r, exec_in_runner ⟨[("rl_sess_s1", "running")], []⟩ "s1" ["true"] ⟨"", none⟩ 3
        = .ok r ∧ r.exit_code = 0 :=
  C10_missing_exit_code_is_success ⟨[("rl_sess_s1", "running")], []⟩ "s1" ["true"]
    ⟨"", none⟩ 3 "rl_sess_s1" rfl rfl

/-- Claim C6: a build whose synthesized command exits non-zero fails with
the `docker build failed` error carrying exactly the trimmed captured logs;
the result is independent of the metrics collector (no metrics are
collected); and trimming keeps logs of at most 200 lines unchanged and
otherwise prepends the truncation marker to the last 200 lines. -/
theorem C6_build_nonzero_exit {μ : Type} (e : Engine) (payload : BuildPayload)
    (ctxIsDir dfIsFile : Bool) (exec : List String → EngineExecResult)
    (collect : List String → μ) (c tag : String) (logs : List String)
    (hrun : get_running_container e payload.session_id = .ok c)
    (habs : pyStartsWith payload.context_path "/" = true)
    (hctx : ctxIsDir = true) (hdf : dfIsFile = true)
    (htag : tag = payload.image_tag.getD (default_image_tag payload.session_id))
    (hlogs : logs = splitLogLines (exec (build_command payload tag)).output)
    (hcode : pyOrZero (exec (build_command payload tag)).exit_code ≠ 0) :
    build_image e payload ctxIsDir dfIsFile exec collect
        = .error ⟨500, .errorLogs "docker build failed" (trim_logs logs)⟩
    ∧ (∀ (ν : Type) (collect2 : List String → ν),
        build_image e payload ctxIsDir dfIsFile exec collect2
          = .error ⟨500, .errorLogs "docker build failed" (trim_logs logs)⟩)
    ∧ (logs.length ≤ MAX_LOG_LINES → trim_logs logs = logs)
    ∧ (MAX_LOG_LINES < logs.length →
        trim_logs logs
          = "... (truncated) ..." :: logs.drop (logs.length - MAX_LOG_LINES)) := by
  subst htag hlogs
  refine ⟨?_, fun ν collect2 => ?_, fun hle => ?_, fun hgt => ?_⟩
  · simp [build_image, hrun, habs, hctx, hdf, hcode]
  · simp [build_image, hrun, habs, hctx, hdf, hcode]
  · simp [trim_logs, hle]
  · simp [trim_logs, Nat.not_le_of_lt hgt]

/-- Witness for C6 at a concrete failing build. -/
theorem C6_witness :
    build_image ⟨[("rl_sess_s1", "running")], []⟩ ⟨"s1", "/workspace", "Dockerfile", none, []⟩
        true true (fun _ => ⟨"err line", some 1⟩) (fun _ => ())
      = .error ⟨500, .errorLogs "docker build failed" (trim_logs ["err line"])⟩ :=
  (C6_build_nonzero_exit ⟨[("rl_sess_s1", "running")], []⟩
    ⟨"s1", "/workspace", "Dockerfile", none, []⟩ true true
    (fun _ => ⟨"err line", some 1⟩) (fun _ => ())
    "rl_sess_s1" "containrlab/session-s1:latest" ["err line"]
    rfl rfl rfl rfl rfl rfl (by decide)).1

/-- Claim C2 (counterexample): a start whose readiness wait succeeds but whose
workspace seeding fails (the in-container wipe exits 1) returns the seeding
error while the created sandbox container survives in the engine — a partial
container outlives the failed start. -/
theorem C2_counterexample_seed_failure :
    (start_runner ⟨true, fun _ => "running", fun _ => 0, 1, true⟩ 30 ⟨[], []⟩ "s1" "lab1").2
        = .error ⟨500, .text "Unable to clean workspace before seeding"⟩
    ∧ (start_runner ⟨true, fun _ => "running", fun _ => 0, 1, true⟩ 30 ⟨[], []⟩
        "s1" "lab1").1.containers = [("rl_sess_s1", "running")] := by
  decide

/-- Claim C2 (amended): the force-remove-on-failure guarantee holds for the
readiness-wait phase — whenever `_wait_for_dockerd` fails (container not
running, or timeout), the state it returns is the removed one — while a
seeding failure returns its error without removing the container (see the
counterexample). -/
theorem C2_wait_failure_removes_container {σ : Type} (statusAt : Nat → String)
    (probeAt : Nat → Int) (remove : σ → σ) (t fuel : Nat) (s : σ) (err : HTTPError)
    (h : (wait_for_dockerd_loop statusAt probeAt remove t fuel s).2 = .error err) :
    (wait_for_dockerd_loop statusAt probeAt remove t fuel s).1 = remove s := by
  induction fuel generalizing t with
  | zero => rfl
  | succ n ih =>
    by_cases hst : statusAt t ≠ "running"
    · simp [wait_for_dockerd_loop, hst]
    · by_cases hp : probeAt t = 0
      · exfalso
        simp [wait_for_dockerd_loop, hst, hp] at h
      · have h2 : (wait_for_dockerd_loop statusAt probeAt remove (t + 1) n s).2 = .error err := by
          simpa [wait_for_dockerd_loop, hst, hp] using h
        simpa [wait_for_dockerd_loop, hst, hp] using ih (t + 1) h2

/-- Witness for the amended C2 at a concrete timing-out wait. -/
theorem C2_wait_witness :
    (wait_for_dockerd_loop (fun _ => "running") (fun _ => 1) (fun _ : Bool => false)
      0 2 true).1 = false :=
  C2_wait_failure_removes_container (fun _ => "running") (fun _ => 1) (fun _ : Bool => false)
    0 2 true ⟨504, .text "Runner daemon failed to become ready in time"⟩ (by decide)

/-- Under a healthy engine (the sandbox stays `"running"` and the nested
daemon's socket appears within the fuel), the readiness wait succeeds without
touching the state. -/
theorem wait_loop_ok {σ : Type} (statusAt : Nat → String) (probeAt : Nat → Int)
    (remove : σ → σ) (s : σ) :
    ∀ fuel t : Nat, (∀ u, statusAt u = "running") →
      (∃ u, t ≤ u ∧ u < t + fuel ∧ probeAt u = 0) →
      wait_for_dockerd_loop statusAt probeAt remove t fuel s = (s, .ok ()) := by
  intro fuel
  induction fuel with
  | zero =>
    rintro t _ ⟨u, h1, h2, _⟩
    omega
  | succ n ih =>
    rintro t hstatus ⟨u, h1, h2, hpu⟩
    by_cases hp : probeAt t = 0
    · simp [wait_for_dockerd_loop, hstatus t, hp]
    · have hne : t ≠ u := fun heq => hp (heq ▸ hpu)
      have : wait_for_dockerd_loop statusAt probeAt remove (t + 1) n s = (s, .ok ()) :=
        ih (t + 1) hstatus ⟨u, by omega, by omega, hpu⟩
      simpa [wait_for_dockerd_loop, hstatus t, hp] using this

/-- Under a healthy engine and existing starter assets, `start` succeeds and
leaves exactly the create-after-remove engine state. -/
theorem start_runner_ok (env : StartEnv) (timeout : Nat) (e : Engine) (sid slug : String)
    (hstarter : env.starterExists = true)
    (hstatus : ∀ u, env.statusAt u = "running")
    (hprobe : ∃ u, u < timeout ∧ env.probeAt u = 0)
    (hrm : env.rmExit = 0) (hput : env.putOk = true) :
    start_runner env timeout e sid slug
      = (containers_run
          (remove_container_if_exists (ensure_volume e (volume_name sid)) (container_name sid))
          (container_name sid),
         .ok (sid, container_name sid)) := by
  obtain ⟨u, hu, hpu⟩ := hprobe
  have hwait := wait_loop_ok env.statusAt env.probeAt
    (remove_sandbox (container_name sid))
    (containers_run
      (remove_container_if_exists (ensure_volume e (volume_name sid)) (container_name sid))
      (container_name sid))
    timeout 0 hstatus ⟨u, Nat.zero_le u, by omega, hpu⟩
  simp [start_runner, hstarter, wait_for_dockerd, hwait, seed_workspace, hrm, hput]

/-- After removing every container of a name and appending one running
container of that name, exactly one container of that name exists. -/
theorem countP_remove_then_create (l : List (String × String)) (name st : String) :
    ((l.filter (fun c => c.1 ≠ name)) ++ [(name, st)]).countP (fun c => c.1 == name) = 1 := by
  rw [List.countP_append]
  have h0 : (l.filter (fun c => c.1 ≠ name)).countP (fun c => c.1 == name) = 0 := by
    rw [List.countP_eq_zero]
    intro a ha
    have := (List.mem_filter.mp ha).2
    simp only [decide_eq_true_eq] at this
    simp [this]
  simp [h0, List.countP_cons]

/-- `_ensure_volume` leaves exactly one volume of the name when the engine
held at most one before. -/
theorem ensure_volume_count (e : Engine) (v : String) (h : e.volumes.count v ≤ 1) :
    (ensure_volume e v).volumes.count v = 1 := by
  unfold ensure_volume
  by_cases hc : v ∈ e.volumes
  · have h1 : 1 ≤ e.volumes.count v := List.count_pos_iff.mpr hc
    simp only [List.elem_iff.mpr hc, if_pos]
    omega
  · have h0 : e.volumes.count v = 0 := List.count_eq_zero.mpr hc
    simp [hc, List.count_append, h0]

/-- Claim C3: with a valid lab slug and a healthy engine, calling `start`
twice with the same session id never errors, leaves exactly one running
sandbox container of the derived name, and reuses the named volume (exactly
one volume of the derived name remains). -/
theorem C3_start_twice_idempotent (env : StartEnv) (timeout : Nat) (e : Engine)
    (sid slug : String)
    (hstarter : env.starterExists = true)
    (hstatus : ∀ u, env.statusAt u = "running")
    (hprobe : ∃ u, u < timeout ∧ env.probeAt u = 0)
    (hrm : env.rmExit = 0) (hput : env.putOk = true)
    (hvol : e.volumes.count (volume_name sid) ≤ 1) :
    ∃ e1 e2 : Engine,
      start_runner env timeout e sid slug = (e1, .ok (sid, container_name sid))
      ∧ start_runner env timeout e1 sid slug = (e2, .ok (sid, container_name sid))
      ∧ e2.containers.countP (fun c => c.1 == container_name sid) = 1
      ∧ (container_name sid, "running") ∈ e2.containers
      ∧ e2.volumes.count (volume_name sid) = 1 := by
  set n := container_name sid with hn
  set v := volume_name sid with hv
  set e1 := containers_run (remove_container_if_exists (ensure_volume e v) n) n with he1
  set e2 := containers_run (remove_container_if_exists (ensure_volume e1 v) n) n with he2
  refine ⟨e1, e2, start_runner_ok env timeout e sid slug hstarter hstatus hprobe hrm hput,
    start_runner_ok env timeout e1 sid slug hstarter hstatus hprobe hrm hput, ?_, ?_, ?_⟩
  · exact countP_remove_then_create (ensure_volume e1 v).containers n "running"
  · exact List.mem_append_right _ (List.mem_singleton_self _)
  · have h1 : e1.volumes.count v = 1 := ensure_volume_count e v hvol
    have : e2.volumes = (ensure_volume e1 v).volumes := rfl
    rw [this]
    exact ensure_volume_count e1 v (by omega)

/-- Witness for C3 at a concrete healthy engine and session id. -/
theorem C3_witness :
    ∃ e1 e2 : Engine,
      start_runner ⟨true, fun _ => "running", fun _ => 0, 0, true⟩ 1 ⟨[], []⟩ "s1" "lab1"
          = (e1, .ok ("s1", container_name "s1"))
      ∧ start_runner ⟨true, fun _ => "running", fun _ => 0, 0, true⟩ 1 e1 "s1" "lab1"
          = (e2, .ok ("s1", container_name "s1"))
      ∧ e2.containers.countP (fun c => c.1 == container_name "s1") = 1
      ∧ (container_name "s1", "running") ∈ e2.containers
      ∧ e2.volumes.count (volume_name "s1") = 1 :=
  C3_start_twice_idempotent ⟨true, fun _ => "running", fun _ => 0, 0, true⟩ 1 ⟨[], []⟩
    "s1" "lab1" rfl (fun _ => rfl) ⟨0, Nat.zero_lt_one, rfl⟩ rfl rfl (by decide)

/-- Left cancellation of string concatenation. -/
theorem string_append_left_cancel {a x y : String} (h : a ++ x = a ++ y) : x = y := by
  have hd := congrArg String.data h
  rw [String.data_append, String.data_append] at hd
  exact String.ext (List.append_cancel_left hd)

/-- Claim C7 (counterexample): two distinct session ids agreeing on their
first 32 characters derive the same container name and the same volume name —
the id does not uniquely determine the names, so long ids can collide. -/
theorem C7_counterexample_name_collision :
    ("aaaaaaaaaaaaaaaaaaaaaaaaaaaaaaaab" : String) ≠ "aaaaaaaaaaaaaaaaaaaaaaaaaaaaaaaac"
    ∧ container_name "aaaaaaaaaaaaaaaaaaaaaaaaaaaaaaaab"
        = container_name "aaaaaaaaaaaaaaaaaaaaaaaaaaaaaaaac"
    ∧ volume_name "aaaaaaaaaaaaaaaaaaaaaaaaaaaaaaaab"
        = volume_name "aaaaaaaaaaaaaaaaaaaaaaaaaaaaaaaac" := by
  decide

/-- Claim C7 (amended): the derived names are determined by the first 32
characters of the session id; ids that differ within their first 32
characters (in particular any two distinct ids of at most 32 characters)
derive distinct container names and distinct volume names. -/
theorem C7_names_distinct_on_short_ids (s1 s2 : String) (h : pyTake s1 32 ≠ pyTake s2 32) :
    container_name s1 ≠ container_name s2 ∧ volume_name s1 ≠ volume_name s2 := by
  refine ⟨fun hEq => h ?_, fun hEq => h ?_⟩
  · exact string_append_left_cancel (a := "rl_sess_") hEq
  · exact string_append_left_cancel (a := "rl_ws_") hEq

/-- Witness for the amended C7 at two concrete short ids. -/
theorem C7_witness :
    container_name "s1" ≠ container_name "s2" ∧ volume_name "s1" ≠ volume_name "s2" :=
  C7_names_distinct_on_short_ids "s1" "s2" (by decide)

/-- Claim C8 (counterexample): a run request with the malformed port mapping
`"8080"` and `remove_existing = true` against a session whose sandbox is
running *does* fail with InvalidInput (400), but only after the pre-existing
application container of the target name has been removed from the nested
engine — the engine state is not left unchanged. -/
theorem C8_counterexample_removal_before_validation :
    run_image ⟨[("rl_sess_sess1", "running")], []⟩ ⟨["rl_app_sess1"]⟩
        ⟨"sess1", "nginx", [], [], ["8080"], none, true, false, true⟩
        (fun _ => ⟨"", some 0⟩) 0
      = (⟨[]⟩, .error ⟨400, .text "Port mapping 8080 must be in HOST:CONTAINER form"⟩) := by
  decide

/-- A port list containing a colon-free mapping makes the port loop fail 400. -/
theorem port_args_invalid (ports : List String) (m : String) (hm : m ∈ ports)
    (hbad : ¬ m.data.contains ':') :
    ∃ msg, port_args ports = .error ⟨400, .text msg⟩ := by
  induction ports with
  | nil => cases hm
  | cons p rest ih =>
    rcases List.mem_cons.mp hm with rfl | hm2
    · refine ⟨"Port mapping " ++ m ++ " must be in HOST:CONTAINER form", ?_⟩
      simp only [port_args]
      rw [if_pos hbad]
    · by_cases hp : p.data.contains ':'
      · obtain ⟨msg, hmsg⟩ := ih hm2
        refine ⟨msg, ?_⟩
        simp only [port_args]
        rw [if_neg (not_not_intro hp), hmsg]
      · refine ⟨"Port mapping " ++ p ++ " must be in HOST:CONTAINER form", ?_⟩
        simp only [port_args]
        rw [if_pos hp]

/-- Claim C8 (amended): a run request with a port mapping lacking a colon
fails with InvalidInput (400) before the `docker run` command is issued (the
result does not depend on the engine-exec oracle) — but after the
`remove_existing` cleanup, which runs first and removes any pre-existing
container of the target name. -/
theorem C8_invalid_port_fails_before_run (e : Engine) (s : Sandbox) (p : RunPayload)
    (exec : List String → EngineExecResult) (elapsed : Nat) (c : String)
    (hrun : get_running_container e p.session_id = .ok c)
    (m : String) (hm : m ∈ p.ports) (hbad : ¬ m.data.contains ':') :
    (∃ msg, run_image e s p exec elapsed
        = ((if p.remove_existing then
              remove_inner_container s (p.name.getD (default_run_container_name p.session_id))
            else s),
           .error ⟨400, .text msg⟩))
    ∧ (∀ exec2, run_image e s p exec elapsed = run_image e s p exec2 elapsed) := by
  obtain ⟨msg, hmsg⟩ := port_args_invalid p.ports m hm hbad
  constructor
  · exact ⟨msg, by simp [run_image, hrun, hmsg]⟩
  · intro exec2
    simp [run_image, hrun, hmsg]

/-- Witness for the amended C8 at the counterexample inputs. -/
theorem C8_witness :
    (∃ msg,
      run_image ⟨[("rl_sess_sess1", "running")], []⟩ ⟨["rl_app_sess1"]⟩
          ⟨"sess1", "nginx", [], [], ["8080"], none, true, false, true⟩
          (fun _ => ⟨"", some 0⟩) 0
        = (⟨[]⟩, .error ⟨400, .text msg⟩))
    ∧ (∀ exec2,
      run_image ⟨[("rl_sess_sess1", "running")], []⟩ ⟨["rl_app_sess1"]⟩
          ⟨"sess1", "nginx", [], [], ["8080"], none, true, false, true⟩
          (fun _ => ⟨"", some 0⟩) 0
        = run_image ⟨[("rl_sess_sess1", "running")], []⟩ ⟨["rl_app_sess1"]⟩
            ⟨"sess1", "nginx", [], [], ["8080"], none, true, false, true⟩ exec2 0) :=
  C8_invalid_port_fails_before_run ⟨[("rl_sess_sess1", "running")], []⟩ ⟨["rl_app_sess1"]⟩
    ⟨"sess1", "nginx", [], [], ["8080"], none, true, false, true⟩
    (fun _ => ⟨"", some 0⟩) 0 "rl_sess_sess1" rfl "8080" (List.mem_singleton_self _) (by decide)

/-- Claim C9: every inbound frame that does not parse as a JSON object is
dispatched as an input message whose data is the raw frame text (and, when
non-empty, written to the PTY); frames parsed as objects of type `"pong"` are
ignored; frames of type `"input"` with non-empty string data write that data
to the PTY. -/
theorem C9_terminal_frame_dispatch :
    (∀ (parsed : Option JValue) (message : String),
      (∀ fields, parsed ≠ some (JValue.obj fields)) →
        frame_payload parsed message
            = [("type", JValue.str "input"), ("data", JValue.str message)]
        ∧ dispatch_frame parsed message
            = (if message ≠ "" then .writePty message else .ignore))
    ∧ (∀ (fields : List (String × JValue)) (message : String),
        jlookup fields "type" = some (JValue.str "pong") →
          dispatch_frame (some (JValue.obj fields)) message = .ignore)
    ∧ (∀ (fields : List (String × JValue)) (message d : String),
        jlookup fields "type" = some (JValue.str "input") →
          jlookup fields "data" = some (JValue.str d) → d ≠ "" →
            dispatch_frame (some (JValue.obj fields)) message = .writePty d) := by
  refine ⟨fun parsed message hne => ⟨?_, ?_⟩, fun fields message hty => ?_,
    fun fields message d hty hdata hd => ?_⟩
  · match parsed with
    | none => rfl
    | some JValue.null => rfl
    | some (JValue.bool b) => rfl
    | some (JValue.num n) => rfl
    | some (JValue.str s) => rfl
    | some (JValue.arr xs) => rfl
    | some (JValue.obj fields) => exact absurd rfl (hne fields)
  · have hp : frame_payload parsed message
        = [("type", JValue.str "input"), ("data", JValue.str message)] := by
      match parsed with
      | none => rfl
      | some JValue.null => rfl
      | some (JValue.bool b) => rfl
      | some (JValue.num n) => rfl
      | some (JValue.str s) => rfl
      | some (JValue.arr xs) => rfl
      | some (JValue.obj fields) => exact absurd rfl (hne fields)
    simp [dispatch_frame, hp, jlookup, isStr]
  · simp [dispatch_frame, frame_payload, hty, isStr]
  · simp [dispatch_frame, frame_payload, hty, hdata, isStr, hd]

/-- Witness for C9: a malformed frame, a pong frame, and an input frame. -/
theorem C9_witness :
    (frame_payload none "ls -la"
        = [("type", JValue.str "input"), ("data", JValue.str "ls -la")]
      ∧ dispatch_frame none "ls -la"
          = (if "ls -la" ≠ "" then TermAction.writePty "ls -la" else .ignore))
    ∧ dispatch_frame (some (JValue.obj [("type", JValue.str "pong")])) "x" = .ignore
    ∧ dispatch_frame
        (some (JValue.obj [("type", JValue.str "input"), ("data", JValue.str "echo hi")]))
        "x" = .writePty "echo hi" :=
  ⟨C9_terminal_frame_dispatch.1 none "ls -la" (fun _ h => Option.noConfusion h),
   C9_terminal_frame_dispatch.2.1 [("type", JValue.str "pong")] "x" rfl,
   C9_terminal_frame_dispatch.2.2 [("type", JValue.str "input"), ("data", JValue.str "echo hi")]
     "x" "echo hi" rfl rfl (by decide)⟩

/-- Decoding inverts encoding on each sextet (checked over all 64). -/
theorem decChar_encChar_fin : ∀ s : Fin 64, decChar (encChar s.val) = some s.val := by
  decide

/-- Decoding inverts encoding on sextets. -/
theorem decChar_encChar {s : Nat} (h : s < 64) : decChar (encChar s) = some s :=
  decChar_encChar_fin ⟨s, h⟩

/-- The padding character is outside the alphabet. -/
theorem decChar_pad : decChar '=' = none := by
  decide

/-- No sextet encodes to the padding character. -/
theorem encChar_ne_pad {s : Nat} (h : s < 64) : encChar s ≠ '=' := by
  intro heq
  have h1 := decChar_encChar h
  rw [heq, decChar_pad] at h1
  exact Option.noConfusion h1

/-- `b64decode` inverts `b64encode` on byte lists. -/
theorem b64decode_b64encode : ∀ bs : List Nat, (∀ b ∈ bs, b < 256) →
    b64decode (b64encode bs) = some bs := by
  intro bs
  induction bs using b64encode.induct with
  | case1 =>
    intro _
    rfl
  | case2 a =>
    intro h
    have ha : a < 256 := h a (by simp)
    have d0 := decChar_encChar (s := a / 4) (by omega)
    have d1 := decChar_encChar (s := a % 4 * 16) (by omega)
    simp [b64encode, b64decode, d0, d1]
    omega
  | case3 a b =>
    intro h
    have ha : a < 256 := h a (by simp)
    have hb : b < 256 := h b (by simp)
    have d0 := decChar_encChar (s := a / 4) (by omega)
    have d1 := decChar_encChar (s := a % 4 * 16 + b / 16) (by omega)
    have d2 := decChar_encChar (s := b % 16 * 4) (by omega)
    have n2 := encChar_ne_pad (s := b % 16 * 4) (by omega)
    simp [b64encode, b64decode, d0, d1, d2, n2]
    constructor
    · omega
    · omega
  | case4 a b c rest ih =>
    intro h
    have ha : a < 256 := h a (by simp)
    have hb : b < 256 := h b (by simp)
    have hc : c < 256 := h c (by simp)
    have hrest : ∀ x ∈ rest, x < 256 := fun x hx => h x (by simp [hx])
    have d0 := decChar_encChar (s := a / 4) (by omega)
    have d1 := decChar_encChar (s := a % 4 * 16 + b / 16) (by omega)
    have d2 := decChar_encChar (s := b % 16 * 4 + c / 64) (by omega)
    have d3 := decChar_encChar (s := c % 64) (by omega)
    have n2 := encChar_ne_pad (s := b % 16 * 4 + c / 64) (by omega)
    have n3 := encChar_ne_pad (s := c % 64) (by omega)
    simp [b64encode, b64decode, d0, d1, d2, d3, n2, n3, ih hrest]
    refine ⟨by omega, by omega, by omega⟩

/-- Claim C4: writing the base64 encoding of any byte string (including
non-UTF-8 bytes) and reading the same path back, against a running session
and a path the sanitizer accepts, returns the fixed `"base64"` encoding tag
and content that decodes to exactly the original bytes. -/
theorem C4_write_read_roundtrip (e : Engine) (fs : FileStore) (sid path : String)
    (bs : List Nat) (hbytes : ∀ b ∈ bs, b < 256)
    (c : String) (hrun : get_running_container e sid = .ok c)
    (t : String) (hsan : sanitize_workspace_path path = .ok t) :
    ∃ fs2,
      write_file e fs sid path "base64" (String.mk (b64encode bs)) = (fs2, .ok t)
      ∧ read_file e fs2 sid path = .ok (t, "base64", String.mk (b64encode bs))
      ∧ b64decode (String.mk (b64encode bs)).data = some bs := by
  have hdata : (String.mk (b64encode bs)).data = b64encode bs := rfl
  have hdec : b64decode (String.mk (b64encode bs)).data = some bs := by
    rw [hdata]
    exact b64decode_b64encode bs hbytes
  refine ⟨store_write fs t bs, ?_, ?_, hdec⟩
  · simp [write_file, hdec, hrun, hsan]
  · have hread : store_read (store_write fs t bs) t = some bs := by
      simp [store_read, store_write, List.find?]
    simp [read_file, hrun, hsan, hread]

/-- Witness for C4: a running session, a path with a `..` segment, and bytes
that are not valid UTF-8 (`0xFF`). -/
theorem C4_witness :
    ∃ fs2,
      write_file ⟨[("rl_sess_s1", "running")], []⟩ [] "s1" "sub/../sub/file.txt" "base64"
          (String.mk (b64encode [0, 255, 10])) = (fs2, .ok "/workspace/sub/file.txt")
      ∧ read_file ⟨[("rl_sess_s1", "running")], []⟩ fs2 "s1" "sub/../sub/file.txt"
          = .ok ("/workspace/sub/file.txt", "base64", String.mk (b64encode [0, 255, 10]))
      ∧ b64decode (String.mk (b64encode [0, 255, 10])).data = some [0, 255, 10] :=
  C4_write_read_roundtrip ⟨[("rl_sess_s1", "running")], []⟩ [] "s1" "sub/../sub/file.txt"
    [0, 255, 10] (by decide) "rl_sess_s1" rfl "/workspace/sub/file.txt" (by decide)

end ContainrLab
